import Mathlib

/-!
Shallow embedding of the farjad-backend Django models and the derived-field,
save-hook and validation logic defined on them.

Conventions of the embedding:
* `DecimalField` values are embedded as `ℚ` (exact decimal arithmetic).
* `DateField` / `DateTimeField` values used only for comparison are embedded
  as `ℤ` (an ordinal); the wall-clock timestamps fed to `strftime` are
  embedded as the `Timestamp` structure below.
* Foreign keys are embedded as row ids (`ℕ`); a reverse relation such as
  `invoice.payments` becomes a filter over an explicit list of rows that
  stands for the database table.
* The ORM aggregate `aggregate(Sum(f))[k]` yields SQL `NULL` on an empty row
  set, embedded as `Option` with `none` for `NULL`; the Python idiom
  `x or default` then tests Python truthiness, under which both `None` and a
  zero `Decimal`/`int` are falsy.
* `Model.clean` raising `ValidationError` is embedded as `Except String Unit`
  returning `Except.error` with the message.
* `Model.save` is embedded as a function from the record (and, where the
  source reads the clock, the current timestamp) to the record that is then
  written by `super().save()`.
-/

namespace Farjad

/-- Python `x or d` applied to the `ℚ`-valued result of an ORM `Sum`
aggregate: `none` stands for SQL `NULL`, and a zero value is falsy in
Python, so both fall through to the default. -/
def pyOrQ : Option ℚ → ℚ → ℚ
  | none, d => d
  | some v, d => if v = 0 then d else v

/-- Python `x or d` for an `ℤ`-valued aggregate result. -/
def pyOrZ : Option ℤ → ℤ → ℤ
  | none, d => d
  | some v, d => if v = 0 then d else v

/-- SQL `SUM` over the listed values: `NULL` (`none`) when there are no
rows, otherwise the sum. -/
def aggSumQ (xs : List ℚ) : Option ℚ :=
  if xs.isEmpty then none else some xs.sum

/-- SQL `SUM` over `ℤ` values: `NULL` (`none`) when there are no rows. -/
def aggSumZ (xs : List ℤ) : Option ℤ :=
  if xs.isEmpty then none else some xs.sum

/-- A wall-clock time as read from `timezone.now()`, broken into the six
fields consumed by `strftime` with format `%Y%m%d%H%M%S`. -/
structure Timestamp where
  year : ℕ
  month : ℕ
  day : ℕ
  hour : ℕ
  minute : ℕ
  second : ℕ
deriving Repr, DecidableEq

/-- The character for a single decimal digit. -/
def digitChar (n : ℕ) : Char := Char.ofNat (48 + n)

/-- `%04d`: a natural number rendered as exactly four zero-padded decimal
digits (faithful to `strftime` for values below 10000). -/
def pad4 (n : ℕ) : String :=
  String.mk [digitChar (n / 1000 % 10), digitChar (n / 100 % 10),
             digitChar (n / 10 % 10), digitChar (n % 10)]

/-- `%02d`: a natural number rendered as exactly two zero-padded decimal
digits (faithful to `strftime` for values below 100). -/
def pad2 (n : ℕ) : String :=
  String.mk [digitChar (n / 10 % 10), digitChar (n % 10)]

/-- `timezone.now().strftime(%Y%m%d%H%M%S)`: the timestamp rendered as the
14-character string YYYYMMDDHHMMSS. -/
def Timestamp.strftimeYmdHMS (t : Timestamp) : String :=
  pad4 t.year ++ pad2 t.month ++ pad2 t.day ++
    pad2 t.hour ++ pad2 t.minute ++ pad2 t.second

/-- The field values of a `Timestamp` are in the ranges within which the
`pad4`/`pad2` rendering agrees with `strftime` zero-padding. -/
def Timestamp.valid (t : Timestamp) : Prop :=
  t.year ≤ 9999 ∧ t.month ≤ 99 ∧ t.day ≤ 99 ∧
    t.hour ≤ 99 ∧ t.minute ≤ 99 ∧ t.second ≤ 99

/-- `finance.models.Invoice`: the fields relevant to the derived and
generated behaviour (`src/finance/models.py`). -/
structure Invoice where
  id : ℕ
  invoice_number : String
  invoice_type : String
  status : String
  invoice_date : ℤ
  due_date : ℤ
  subtotal : ℚ
  tax_amount : ℚ
  discount_amount : ℚ
  total_amount : ℚ
deriving Repr, DecidableEq

/-- `finance.models.Payment`: the fields relevant here. `invoice` is the
foreign key to the invoice row. -/
structure Payment where
  id : ℕ
  payment_number : String
  invoice : ℕ
  amount : ℚ
  payment_method : String
  status : String
deriving Repr, DecidableEq

/-- The reverse relation `self.payments`: all `Payment` rows whose
`invoice` foreign key is this invoice. -/
def Invoice.payments (inv : Invoice) (db : List Payment) : List Payment :=
  db.filter (fun p => p.invoice == inv.id)

/-- `Invoice.remaining_amount` (src/finance/models.py lines 182-188):
`total_amount` minus `payments.aggregate(Sum(amount))[total] or 0.00`.
A pure read: it takes the stored rows and returns a value. -/
def Invoice.remaining_amount (inv : Invoice) (db : List Payment) : ℚ :=
  let total_paid := pyOrQ (aggSumQ ((inv.payments db).map Payment.amount)) 0
  inv.total_amount - total_paid

/-- `Invoice.is_overdue` (src/finance/models.py lines 176-180):
`status not in [paid, cancelled] and timezone.now().date() > due_date`.
`today` is the date read from the clock. -/
def Invoice.is_overdue (inv : Invoice) (today : ℤ) : Bool :=
  decide (inv.status ∉ (["paid", "cancelled"] : List String)) &&
    decide (today > inv.due_date)

/-- `Invoice.save` (src/finance/models.py lines 168-174): generate the
invoice number from the current timestamp when the stored one is empty
(Python falsiness of the `CharField` value), then perform the normal save. -/
def Invoice.save (inv : Invoice) (now : Timestamp) : Invoice :=
  if inv.invoice_number = "" then
    { inv with invoice_number := "INV-" ++ now.strftimeYmdHMS }
  else inv

/-- `Payment.save` (src/finance/models.py lines 316-322): generate the
payment number from the current timestamp when the stored one is empty. -/
def Payment.save (pay : Payment) (now : Timestamp) : Payment :=
  if pay.payment_number = "" then
    { pay with payment_number := "PAY-" ++ now.strftimeYmdHMS }
  else pay

/-- `inventory.models.Product`: the fields relevant to the derived stock
and margin computations (`src/inventory/models.py`). `min_stock_level` and
`max_stock_level` are `PositiveIntegerField` columns (non-negative). -/
structure Product where
  id : ℕ
  sku : String
  cost_price : ℚ
  selling_price : ℚ
  min_stock_level : ℕ
  max_stock_level : ℕ
  status : String
deriving Repr, DecidableEq

/-- `inventory.models.InventoryItem`: `product` is the foreign key to the
product row; `quantity` is an `IntegerField` (may be negative for stock-out
or adjustment rows). -/
structure InventoryItem where
  id : ℕ
  product : ℕ
  quantity : ℤ
  transaction_type : String
deriving Repr, DecidableEq

/-- The reverse relation `self.inventory_items`: all `InventoryItem` rows
whose `product` foreign key is this product. -/
def Product.inventory_items (p : Product) (db : List InventoryItem) : List InventoryItem :=
  db.filter (fun it => it.product == p.id)

/-- `Product.current_stock` (src/inventory/models.py lines 226-231):
`inventory_items.aggregate(Sum(quantity))[total] or 0`. -/
def Product.current_stock (p : Product) (db : List InventoryItem) : ℤ :=
  pyOrZ (aggSumZ ((p.inventory_items db).map InventoryItem.quantity)) 0

/-- `Product.profit_margin` (src/inventory/models.py lines 219-224):
`((selling_price - cost_price) / cost_price) * 100` when `cost_price > 0`,
else `0`. -/
def Product.profit_margin (p : Product) : ℚ :=
  if p.cost_price > 0 then
    ((p.selling_price - p.cost_price) / p.cost_price) * 100
  else 0

/-- `Product.is_low_stock` (src/inventory/models.py lines 233-236):
`current_stock <= min_stock_level`. -/
def Product.is_low_stock (p : Product) (db : List InventoryItem) : Bool :=
  decide (p.current_stock db ≤ (p.min_stock_level : ℤ))

/-- `Product.is_out_of_stock` (src/inventory/models.py lines 238-241):
`current_stock <= 0`. -/
def Product.is_out_of_stock (p : Product) (db : List InventoryItem) : Bool :=
  decide (p.current_stock db ≤ 0)

/-- A concrete product used to instantiate hypotheses of the stock and
margin theorems. -/
def productA : Product :=
  ⟨1, "SKU-1", 50, 75, 2, 100, "active"⟩

/-- A concrete product with zero cost price. -/
def productB : Product :=
  ⟨2, "SKU-2", 0, 75, 0, 100, "active"⟩

/-- `finance.models.InvoiceItem`: a line item of an invoice
(`src/finance/models.py`). All monetary fields are `DecimalField`. -/
structure InvoiceItem where
  id : ℕ
  invoice : ℕ
  description : String
  quantity : ℚ
  unit_price : ℚ
  discount_percentage : ℚ
  line_total : ℚ
deriving Repr, DecidableEq

/-- `InvoiceItem.save` (src/finance/models.py lines 238-242): compute the
line total from unit price, quantity and discount percentage before the
normal save. -/
def InvoiceItem.save (it : InvoiceItem) : InvoiceItem :=
  let discount_amount := (it.unit_price * it.quantity * it.discount_percentage) / 100
  { it with line_total := (it.unit_price * it.quantity) - discount_amount }

/-- `inventory.models.ProductImage`: `pk` is the primary key, `product`
the foreign key to the product row (`src/inventory/models.py`). -/
structure ProductImage where
  pk : ℕ
  product : ℕ
  is_primary : Bool
  sort_order : ℕ
deriving Repr, DecidableEq

/-- `ProductImage.clean` (src/inventory/models.py lines 323-334): when the
image is primary, query all `ProductImage` rows with the same product and
`is_primary` set, excluding this primary key, and raise when any exists.
`db` is the `ProductImage` table. -/
def ProductImage.clean (img : ProductImage) (db : List ProductImage) : Except String Unit :=
  if img.is_primary then
    let existing_primary :=
      (db.filter (fun r => r.product == img.product && r.is_primary)).filter
        (fun r => !(r.pk == img.pk))
    if !existing_primary.isEmpty then
      Except.error "Only one primary image is allowed per product."
    else Except.ok ()
  else Except.ok ()

/-- `core.models.Address`: `contact` and `company` are nullable foreign
keys (`src/core/models.py`). -/
structure Address where
  id : ℕ
  contact : Option ℕ
  company : Option ℕ
  street_address : String
  city : String
deriving Repr, DecidableEq

/-- `Address.clean` (src/core/models.py lines 170-178): raise when neither
contact nor company is set, raise when both are set, else pass (Python
falsiness of a nullable foreign key is it being None). -/
def Address.clean (a : Address) : Except String Unit :=
  if a.contact.isNone && a.company.isNone then
    Except.error "Either contact or company must be specified."
  else if a.contact.isSome && a.company.isSome then
    Except.error "Cannot specify both contact and company."
  else Except.ok ()

/-- `services.models.Schedule`: start and end times are `DateTimeField`
values, embedded as `ℤ` ordinals (`src/services/models.py`). -/
structure Schedule where
  id : ℕ
  technician : ℕ
  service_request : ℕ
  start_time : ℤ
  end_time : ℤ
  is_confirmed : Bool
deriving Repr, DecidableEq

/-- `Schedule.clean` (src/services/models.py lines 308-313): raise when
`start_time >= end_time`, else pass. -/
def Schedule.clean (s : Schedule) : Except String Unit :=
  if s.start_time ≥ s.end_time then
    Except.error "End time must be after start time."
  else Except.ok ()

/-- `services.models.ServiceRequest`: the fields relevant to number
generation (`src/services/models.py`). -/
structure ServiceRequest where
  id : ℕ
  request_number : String
  title : String
  status : String
deriving Repr, DecidableEq

/-- `ServiceRequest.save` (src/services/models.py lines 223-229): generate
the request number from the current timestamp when the stored one is
empty, then perform the normal save. -/
def ServiceRequest.save (sr : ServiceRequest) (now : Timestamp) : ServiceRequest :=
  if sr.request_number = "" then
    { sr with request_number := "SR-" ++ now.strftimeYmdHMS }
  else sr

/-- A concrete timestamp (2026-10-12 09:30:05) used to instantiate the
number-generation theorem. -/
def tsA : Timestamp := ⟨2026, 10, 12, 9, 30, 5⟩

/-- A concrete invoice with an empty invoice number. -/
def invoiceA : Invoice :=
  ⟨1, "", "sale", "draft", 0, 10, 100, 9, 0, 109⟩

/-- A concrete payment with an empty payment number. -/
def paymentA : Payment :=
  ⟨1, "", 1, 40, "cash", "completed"⟩

/-- A concrete service request with an empty request number. -/
def serviceRequestA : ServiceRequest :=
  ⟨1, "", "Repair", "pending"⟩

/-- A concrete address referencing only a contact. -/
def addressA : Address :=
  ⟨1, some 7, none, "Main St 1", "Tehran"⟩

/-- A concrete schedule with start strictly before end. -/
def scheduleA : Schedule :=
  ⟨1, 3, 4, 10, 20, false⟩

/-- A primary image for product 7. -/
def imageA : ProductImage := ⟨1, 7, true, 0⟩

/-- A second primary image for product 7 with a different primary key:
validating it against a table containing `imageA` must fail. -/
def imageB : ProductImage := ⟨2, 7, true, 1⟩

/-- A non-primary image for product 7. -/
def imageC : ProductImage := ⟨3, 7, false, 2⟩

/-- A `ProductImage` table where every row passes validation: one primary
image per product. -/
def imageTableOk : List ProductImage :=
  [⟨1, 7, true, 0⟩, ⟨2, 7, false, 1⟩, ⟨3, 8, true, 0⟩]

/-! ### Helper lemmas -/

theorem pyOrQ_aggSumQ_zero (xs : List ℚ) : pyOrQ (aggSumQ xs) 0 = xs.sum := by
  cases xs with
  | nil => rfl
  | cons a l =>
    by_cases h : a + l.sum = 0 <;> simp [aggSumQ, pyOrQ, h]

theorem pyOrZ_aggSumZ_zero (xs : List ℤ) : pyOrZ (aggSumZ xs) 0 = xs.sum := by
  cases xs with
  | nil => rfl
  | cons a l =>
    by_cases h : a + l.sum = 0 <;> simp [aggSumZ, pyOrZ, h]

theorem strftimeYmdHMS_len (t : Timestamp) : t.strftimeYmdHMS.length = 14 := by
  simp [Timestamp.strftimeYmdHMS, pad4, pad2, String.length]

theorem current_stock_sum (p : Product) (db : List InventoryItem) :
    p.current_stock db =
      ((db.filter (fun it => it.product == p.id)).map InventoryItem.quantity).sum := by
  unfold Product.current_stock Product.inventory_items
  rw [pyOrZ_aggSumZ_zero]

theorem isEmpty_filter_eq_false_iff {α : Type} (p : α → Bool) (l : List α) :
    (l.filter p).isEmpty = false ↔ ∃ x ∈ l, p x = true := by
  induction l with
  | nil => simp
  | cons a t ih =>
    by_cases hpa : p a <;> simp [List.filter_cons, hpa, ih]

theorem productImage_clean_error_iff (img : ProductImage) (db : List ProductImage)
    (hp : img.is_primary = true) :
    img.clean db = Except.error "Only one primary image is allowed per product." ↔
      ∃ r ∈ db, r.pk ≠ img.pk ∧ r.product = img.product ∧ r.is_primary = true := by
  simp only [ProductImage.clean, hp, if_true]
  rw [List.filter_filter]
  by_cases he :
      (db.filter (fun r => (!(r.pk == img.pk)) && (r.product == img.product && r.is_primary))).isEmpty
  · rw [if_neg (by rw [he]; simp)]
    rw [List.isEmpty_iff] at he
    rw [List.filter_eq_nil_iff] at he
    constructor
    · intro h; cases h
    · rintro ⟨r, hr, hpk, hprod, hprim⟩
      exact absurd (by simp [hpk, hprod, hprim]) (he r hr)
  · rw [Bool.not_eq_true] at he
    rw [if_pos (by rw [he]; rfl)]
    rw [isEmpty_filter_eq_false_iff] at he
    constructor
    · intro _
      obtain ⟨r, hr, hcond⟩ := he
      simp only [Bool.and_eq_true, Bool.not_eq_true', beq_eq_false_iff_ne,
        beq_iff_eq] at hcond
      exact ⟨r, hr, hcond.1, hcond.2.1, hcond.2.2⟩
    · intro _; rfl

/-! ### Claim theorems -/

/-- C1: the remaining balance of an invoice is derived on read: it equals
the total amount of the invoice minus the sum of the amounts of all
payment rows whose invoice is this invoice, the sum being 0 when the
invoice has no payments (the empty sum is 0); the computation is a pure
function of the stored rows, so reading it changes no stored state. -/
theorem remaining_amount_eq_total_sub_payment_sum (inv : Invoice) (db : List Payment) :
    inv.remaining_amount db =
      inv.total_amount -
        ((db.filter (fun p => p.invoice == inv.id)).map Payment.amount).sum := by
  unfold Invoice.remaining_amount Invoice.payments
  rw [pyOrQ_aggSumQ_zero]

/-- C2: the current stock of a product is derived on read: it equals the
sum of the quantities of all inventory item rows whose product is this
product, and is 0 when the product has no inventory items; it is a pure
function of the stored rows, not a stored field. -/
theorem current_stock_eq_sum_of_quantities (p : Product) (db : List InventoryItem) :
    p.current_stock db =
        ((db.filter (fun it => it.product == p.id)).map InventoryItem.quantity).sum ∧
      (db.filter (fun it => it.product == p.id) = [] → p.current_stock db = 0) :=
  ⟨current_stock_sum p db,
   fun he => by rw [current_stock_sum p db, he]; rfl⟩

/-- Closed instance of C2: a product with no matching inventory rows has
current stock 0. -/
theorem current_stock_eq_sum_of_quantities_witness :
    List.filter (fun it => it.product == productA.id) ([] : List InventoryItem) = [] ∧
      productA.current_stock [] = 0 :=
  ⟨rfl, (current_stock_eq_sum_of_quantities productA []).2 rfl⟩

/-- C3: the overdue status of an invoice is derived on read and holds iff
the stored status is neither "paid" nor "cancelled" and the current date
is strictly after the due date; the stored status value "overdue" plays no
special role (the right-hand side mentions only "paid" and "cancelled"). -/
theorem is_overdue_iff (inv : Invoice) (today : ℤ) :
    inv.is_overdue today = true ↔
      (inv.status ≠ "paid" ∧ inv.status ≠ "cancelled" ∧ inv.due_date < today) := by
  simp [Invoice.is_overdue, not_or, and_assoc, gt_iff_lt]

/-- C4: document numbers are generated from timestamps: an Invoice,
Payment or ServiceRequest saved with an empty number field gets the fixed
prefix (INV-, PAY-, SR- respectively) followed by the current time
rendered as the 14-character string YYYYMMDDHHMMSS, and a record saved
with a non-empty number keeps it; the timestamp rendering has length 14
(the validity hypothesis keeps the rendering within the range where it is
faithful to strftime). -/
theorem save_generates_numbers_from_timestamp (inv : Invoice) (pay : Payment)
    (sr : ServiceRequest) (now : Timestamp) (_hv : now.valid) :
    ((inv.save now).invoice_number =
        if inv.invoice_number = "" then "INV-" ++ now.strftimeYmdHMS
        else inv.invoice_number) ∧
      ((pay.save now).payment_number =
        if pay.payment_number = "" then "PAY-" ++ now.strftimeYmdHMS
        else pay.payment_number) ∧
      ((sr.save now).request_number =
        if sr.request_number = "" then "SR-" ++ now.strftimeYmdHMS
        else sr.request_number) ∧
      now.strftimeYmdHMS.length = 14 := by
  refine ⟨?_, ?_, ?_, strftimeYmdHMS_len now⟩
  · by_cases h : inv.invoice_number = "" <;> simp [Invoice.save, h]
  · by_cases h : pay.payment_number = "" <;> simp [Payment.save, h]
  · by_cases h : sr.request_number = "" <;> simp [ServiceRequest.save, h]

/-- Closed instance of C4 at the timestamp 2026-10-12 09:30:05. -/
theorem save_generates_numbers_from_timestamp_witness :
    tsA.valid ∧
      (invoiceA.save tsA).invoice_number = "INV-20261012093005" ∧
      (paymentA.save tsA).payment_number = "PAY-20261012093005" ∧
      (serviceRequestA.save tsA).request_number = "SR-20261012093005" := by
  have hv : tsA.valid := by
    refine ⟨?_, ?_, ?_, ?_, ?_, ?_⟩ <;> norm_num [tsA]
  have h := save_generates_numbers_from_timestamp invoiceA paymentA serviceRequestA tsA hv
  refine ⟨hv, ?_, ?_, ?_⟩
  · rw [h.1]; rfl
  · rw [h.2.1]; rfl
  · rw [h.2.2.1]; rfl

/-- C5: validating an address succeeds exactly when it references exactly
one of a contact or a company, and raises a validation error otherwise
(both absent, or both present). -/
theorem address_clean_ok_iff (a : Address) :
    a.clean = Except.ok () ↔
      ((a.contact ≠ none ∧ a.company = none) ∨
        (a.contact = none ∧ a.company ≠ none)) := by
  rcases a with ⟨i, c, k, s, ci⟩
  cases c <;> cases k <;> simp [Address.clean]

/-- C6: validating a schedule succeeds exactly when its start time is
strictly before its end time, and raises exactly when
`start_time >= end_time`. -/
theorem schedule_clean_ok_iff (s : Schedule) :
    (s.clean = Except.ok () ↔ s.start_time < s.end_time) ∧
      (s.clean = Except.error "End time must be after start time." ↔
        s.end_time ≤ s.start_time) := by
  unfold Schedule.clean
  by_cases h : s.start_time ≥ s.end_time
  · rw [if_pos h]
    constructor
    · constructor
      · intro hx
        cases hx
      · intro hx
        exact absurd hx (by omega)
    · constructor
      · intro hx
        omega
      · intro hx
        rfl
  · rw [if_neg h]
    constructor
    · constructor
      · intro hx
        omega
      · intro hx
        rfl
    · constructor
      · intro hx
        cases hx
      · intro hx
        exact absurd hx (by omega)

/-- C7: at most one primary image per product. Validating a primary image
raises exactly when some other row (different primary key) for the same
product is already primary; validating a non-primary image never raises;
hence in a table with distinct primary keys where every row passes
validation, two primary rows for the same product are the same row. -/
theorem productImage_primary_unique (img : ProductImage) (db : List ProductImage) :
    (img.is_primary = true →
      (img.clean db = Except.error "Only one primary image is allowed per product." ↔
        ∃ r ∈ db, r.pk ≠ img.pk ∧ r.product = img.product ∧ r.is_primary = true)) ∧
      (img.is_primary = false → img.clean db = Except.ok ()) ∧
      ((db.map ProductImage.pk).Nodup →
        (∀ r ∈ db, r.clean db = Except.ok ()) →
        img ∈ db → ∀ r ∈ db, img.product = r.product →
          img.is_primary = true → r.is_primary = true → img = r) := by
  refine ⟨fun hp => productImage_clean_error_iff img db hp, ?_, ?_⟩
  · intro hp
    simp [ProductImage.clean, hp]
  · intro hnd hok hmem r hr hprod hp1 hp2
    by_contra hne
    have hpk : r.pk ≠ img.pk := by
      intro h
      exact hne (List.inj_on_of_nodup_map hnd hmem hr h.symm)
    have herr := (productImage_clean_error_iff img db hp1).mpr
      ⟨r, hr, hpk, hprod.symm, hp2⟩
    rw [hok img hmem] at herr
    cases herr

/-- Closed instance of C7: a second primary image for product 7 fails
validation against a table holding a primary image with another key; a
non-primary image passes; and in a validated table the two primary rows
for the same product coincide. -/
theorem productImage_primary_unique_witness :
    imageB.clean [imageA] = Except.error "Only one primary image is allowed per product." ∧
      imageC.clean [imageA] = Except.ok () ∧
      imageA = imageA := by
  refine ⟨?_, ?_, ?_⟩
  · exact ((productImage_primary_unique imageB [imageA]).1 rfl).mpr
      ⟨imageA, List.mem_singleton_self imageA, by decide, rfl, rfl⟩
  · exact (productImage_primary_unique imageC [imageA]).2.1 rfl
  · refine (productImage_primary_unique imageA imageTableOk).2.2
      (by decide) ?_ (by decide) imageA (by decide) rfl rfl rfl
    intro r hr
    fin_cases hr <;> rfl

/-- C8: saving an invoice item overwrites its stored line total with
(unit price times quantity) minus (unit price times quantity times
discount percentage) / 100, in exact decimal arithmetic, regardless of
the line total supplied by the caller. -/
theorem invoiceItem_save_line_total (it : InvoiceItem) :
    (it.save).line_total =
        (it.unit_price * it.quantity) -
          (it.unit_price * it.quantity * it.discount_percentage) / 100 ∧
      (∀ x : ℚ, ({ it with line_total := x } : InvoiceItem).save = it.save) :=
  ⟨rfl, fun _ => rfl⟩

/-- C9: the profit margin of a product is derived on read: it equals
((selling price - cost price) / cost price) * 100 when the cost price is
positive, and 0 when the cost price is 0; in the branch that divides, the
divisor is nonzero, so the guard prevents division by zero. -/
theorem profit_margin_spec (p : Product) :
    (0 < p.cost_price →
        p.profit_margin = ((p.selling_price - p.cost_price) / p.cost_price) * 100 ∧
          p.cost_price ≠ 0) ∧
      (p.cost_price = 0 → p.profit_margin = 0) := by
  constructor
  · intro h
    exact ⟨by simp [Product.profit_margin, h], ne_of_gt h⟩
  · intro h
    simp [Product.profit_margin, h]

/-- Closed instance of C9: a product with cost 50 and selling price 75 has
margin 50 percent, and a product with cost 0 has margin 0. -/
theorem profit_margin_spec_witness :
    (0 : ℚ) < productA.cost_price ∧
      productA.profit_margin = ((productA.selling_price - productA.cost_price) /
        productA.cost_price) * 100 ∧
      productB.cost_price = 0 ∧ productB.profit_margin = 0 := by
  have h1 : (0 : ℚ) < productA.cost_price := by norm_num [productA]
  have h2 : productB.cost_price = (0 : ℚ) := by norm_num [productB]
  exact ⟨h1, ((profit_margin_spec productA).1 h1).1,
    h2, (profit_margin_spec productB).2 h2⟩

/-- C10: out of stock implies low stock: the minimum stock level is a
non-negative integer, being out of stock means the current stock is at
most 0, and being low on stock means it is at most the minimum level, so
every out-of-stock product is low-stock. -/
theorem out_of_stock_implies_low_stock (p : Product) (db : List InventoryItem)
    (h : p.is_out_of_stock db = true) : p.is_low_stock db = true := by
  simp only [Product.is_out_of_stock, decide_eq_true_eq] at h
  simp only [Product.is_low_stock, decide_eq_true_eq]
  exact le_trans h (by positivity)

/-- Closed instance of C10: a product with no inventory rows is out of
stock and therefore low on stock. -/
theorem out_of_stock_implies_low_stock_witness :
    productA.is_out_of_stock [] = true ∧ productA.is_low_stock [] = true :=
  ⟨by decide, out_of_stock_implies_low_stock productA [] (by decide)⟩

end Farjad
